import Mathlib

/-!
Verification of the ToDoList-App UI controller (src/ToDoList-App/App.js).

The component is shallowly embedded as pure state-transition functions.
Each event handler of the React component becomes a Lean function that
takes the current component state together with an explicit oracle for
the outcome of the network calls it makes, and returns the new state,
the list of HTTP requests it issued (in order), and the list of alert
messages it showed.  Try/catch control flow becomes a case split on the
oracle; the `fetchTasks()` re-fetch invoked after a successful mutation
is inlined by calling the embedded `fetchTasks` with its own outcome.
-/

namespace TodoApp

/-- A task record as held in the component's `tasks` state:
`{ id, title, completed }`. -/
structure Task where
  id : Nat
  title : String
  completed : Bool
deriving DecidableEq, Repr

/-- The client-side filter state: one of the strings
`'all' | 'completed' | 'pending'` in the source. -/
inductive Filter where
  | all
  | completed
  | pending
deriving DecidableEq, Repr

/-- The React component state: the `useState` hooks of `TodoList`.
`editingIndex` is `null` or an index (into the unfiltered `tasks`). -/
structure AppState where
  tasks : List Task
  task : String
  editingIndex : Option Nat
  editedTask : String
  filter : Filter
  darkMode : Bool
deriving DecidableEq, Repr

/-- An HTTP request issued by the component, identified by route and body. -/
inductive Request where
  | fetch
  | create (title : String) (completed : Bool)
  | update (id : Nat) (title : String) (completed : Bool)
  | delete (id : Nat)
deriving DecidableEq, Repr

/-- The observable result of running one event handler: the new component
state, the requests issued (in program order) and the alerts shown. -/
structure StepResult where
  state : AppState
  reqs : List Request
  alerts : List String
deriving DecidableEq, Repr

/-- Outcome oracle for `axios.get` on `/fetch/`: `some data` when the call
resolves with `data`, `none` when it rejects. -/
abbrev FetchOutcome := Option (List Task)

/-- Outcome oracle for a mutation call (`post`/`put`/`delete`): either the
call rejects, or it resolves and the subsequent `fetchTasks()` runs with
its own outcome. -/
inductive MutOutcome where
  | fail
  | ok (fo : FetchOutcome)
deriving DecidableEq, Repr

/-- `fetchTasks`: GET `/fetch/`; on success `setTasks(response.data)`,
on failure an alert and no state change. -/
def fetchTasks (s : AppState) (fo : FetchOutcome) : StepResult :=
  match fo with
  | some data => ⟨{ s with tasks := data }, [Request.fetch], []⟩
  | none =>
      ⟨s, [Request.fetch],
        ["Could not fetch tasks. Please try again later."]⟩

/-- `removeTask(id)`: DELETE `/{id}/delete/`; on success re-fetch,
on failure an alert and no state change. -/
def removeTask (s : AppState) (id : Nat) (out : MutOutcome) : StepResult :=
  match out with
  | .fail =>
      ⟨s, [Request.delete id],
        ["Could not delete task. Please try again later."]⟩
  | .ok fo =>
      let f := fetchTasks s fo
      ⟨f.state, Request.delete id :: f.reqs, f.alerts⟩

/-- JavaScript `String.prototype.trim`: the string with all leading and
trailing whitespace characters removed. -/
def jsTrim (s : String) : String :=
  ⟨((s.data.dropWhile Char.isWhitespace).reverse.dropWhile
      Char.isWhitespace).reverse⟩

/-- `addTask()`: returns without any call when `task.trim() === ''`;
otherwise POST `/create/` with body `{ title: task, completed: false }`;
on success clear the input and re-fetch, on failure an alert and no
state change. -/
def addTask (s : AppState) (out : MutOutcome) : StepResult :=
  if jsTrim s.task = "" then ⟨s, [], []⟩
  else
    match out with
    | .fail =>
        ⟨s, [Request.create s.task false],
          ["Could not add task. Please try again later."]⟩
    | .ok fo =>
        let f := fetchTasks { s with task := "" } fo
        ⟨f.state, Request.create s.task false :: f.reqs, f.alerts⟩

/-- `toggleComplete(id, completed)`: looks up
`tasks.find(t => t.id === id)?.title || ''` and PUTs
`{ title, completed: !completed }` to `/{id}/update/`; on success
re-fetch, on failure an alert and no state change. -/
def toggleComplete (s : AppState) (id : Nat) (completed : Bool)
    (out : MutOutcome) : StepResult :=
  let title := ((s.tasks.find? fun t => t.id == id).map Task.title).getD ""
  match out with
  | .fail =>
      ⟨s, [Request.update id title (!completed)],
        ["Could not update task status. Please try again later."]⟩
  | .ok fo =>
      let f := fetchTasks s fo
      ⟨f.state, Request.update id title (!completed) :: f.reqs, f.alerts⟩

/-- `startEditing(index)`: sets `editingIndex` and seeds `editedTask`
with `tasks[index].title`.  The member access is outside any try block,
so an out-of-range index crashes: modelled as `none`. -/
def startEditing (s : AppState) (index : Nat) : Option AppState :=
  match s.tasks[index]? with
  | none => none
  | some t => some { s with editingIndex := some index, editedTask := t.title }

/-- `confirmEdit(index)`: reads `updatedTask = tasks[index]` and PUTs
`{ title: editedTask, completed: updatedTask.completed }` to
`/{updatedTask.id}/update/`; on success clears `editingIndex` and
re-fetches, on failure an alert and no state change.  When `index` is
out of range the member access `updatedTask.id` throws inside the try
block, so the catch branch runs with no request issued. -/
def confirmEdit (s : AppState) (index : Nat) (out : MutOutcome) : StepResult :=
  match s.tasks[index]? with
  | none =>
      ⟨s, [], ["Could not update task. Please try again later."]⟩
  | some t =>
      match out with
      | .fail =>
          ⟨s, [Request.update t.id s.editedTask t.completed],
            ["Could not update task. Please try again later."]⟩
      | .ok fo =>
          let f := fetchTasks { s with editingIndex := none } fo
          ⟨f.state, Request.update t.id s.editedTask t.completed :: f.reqs,
            f.alerts⟩

/-- The rendered list: `tasks.filter(...)` keyed on the current filter. -/
def filteredTasks (s : AppState) : List Task :=
  s.tasks.filter fun task =>
    match s.filter with
    | .completed => task.completed
    | .pending => !task.completed
    | .all => true

/-- The persist effect: `AsyncStorage.setItem('darkMode',
darkMode.toString())` stores the string form of the boolean. -/
def persistDarkMode (b : Bool) : Option String :=
  some (toString b)

/-- `loadMode`: reads the stored string; when present the new mode is
`savedMode === 'true'`, otherwise the state keeps its initial value. -/
def loadMode (saved : Option String) (current : Bool) : Bool :=
  match saved with
  | none => current
  | some str => str = "true"

/-- A concrete completed task used in the demonstration states. -/
def taskA : Task := ⟨1, "first", true⟩

/-- A concrete pending task used in the demonstration states. -/
def taskB : Task := ⟨2, "second", false⟩

/-- A concrete state whose filter is `pending`, with a completed task in
front of a pending one, and an edit in progress. -/
def mismatchState : AppState :=
  ⟨[taskA, taskB], "", some 0, "edited", Filter.pending, false⟩

/-- A concrete state whose input field holds only whitespace. -/
def wsState : AppState :=
  ⟨[taskA], "   ", none, "", Filter.all, false⟩

/-- A concrete state whose input field holds a padded title. -/
def padState : AppState :=
  ⟨[taskA], " hello ", none, "", Filter.all, false⟩

/-- C1: a state whose tasks come from a successful fetch of `ts` renders,
under filter `all`, exactly `ts`; under `completed`, exactly the fetched
tasks with `completed = true`; under `pending`, exactly those with
`completed = false`. -/
theorem filteredTasks_of_fetch (s : AppState) (ts : List Task) :
    filteredTasks { (fetchTasks s (some ts)).state with filter := Filter.all }
        = ts ∧
    filteredTasks
        { (fetchTasks s (some ts)).state with filter := Filter.completed }
        = ts.filter (fun t => t.completed) ∧
    filteredTasks
        { (fetchTasks s (some ts)).state with filter := Filter.pending }
        = ts.filter (fun t => !t.completed) := by
  refine ⟨?_, ?_, ?_⟩ <;> simp [filteredTasks, fetchTasks]

/-- C8: persisting the dark-mode boolean as a string and loading it back at
startup returns the same boolean, whatever the initial value was. -/
theorem darkMode_roundtrip (b : Bool) (current : Bool) :
    loadMode (persistDarkMode b) current = b := by
  cases b <;> rfl

/-- C9: with filter `pending`, row 0 of the rendered list shows `taskB`,
yet `startEditing 0` and `confirmEdit 0` read `tasks[0] = taskA` from the
unfiltered list: the edit is seeded with the other task's title and the
update request carries the other task's id. -/
theorem edit_index_mismatch :
    (filteredTasks mismatchState)[0]? = some taskB ∧
    mismatchState.tasks[0]? = some taskA ∧
    taskA.id ≠ taskB.id ∧
    taskA.title ≠ taskB.title ∧
    startEditing mismatchState 0 =
      some { mismatchState with editingIndex := some 0,
                                editedTask := taskA.title } ∧
    (confirmEdit mismatchState 0 MutOutcome.fail).reqs =
      [Request.update taskA.id mismatchState.editedTask taskA.completed] := by
  refine ⟨rfl, rfl, by decide, by decide, rfl, rfl⟩

/-- C2: when the network call of any operation rejects (outcome `fail`),
the local task collection is exactly what it was before the call and a
user-visible alert is shown.  The hypotheses ensure the operations with a
local guard (`addTask`, `confirmEdit`) actually reach their network call. -/
theorem failure_leaves_tasks_and_alerts (s : AppState) (id : Nat)
    (completed : Bool) (index : Nat)
    (htask : jsTrim s.task ≠ "") (hindex : index < s.tasks.length) :
    ((fetchTasks s none).state.tasks = s.tasks ∧
      (fetchTasks s none).alerts ≠ []) ∧
    ((removeTask s id MutOutcome.fail).state.tasks = s.tasks ∧
      (removeTask s id MutOutcome.fail).alerts ≠ []) ∧
    ((addTask s MutOutcome.fail).state.tasks = s.tasks ∧
      (addTask s MutOutcome.fail).alerts ≠ []) ∧
    ((toggleComplete s id completed MutOutcome.fail).state.tasks = s.tasks ∧
      (toggleComplete s id completed MutOutcome.fail).alerts ≠ []) ∧
    ((confirmEdit s index MutOutcome.fail).state.tasks = s.tasks ∧
      (confirmEdit s index MutOutcome.fail).alerts ≠ []) := by
  obtain ⟨t, ht⟩ : ∃ t, s.tasks[index]? = some t :=
    ⟨s.tasks[index], List.getElem?_eq_getElem hindex⟩
  refine ⟨⟨rfl, by simp [fetchTasks]⟩, ⟨rfl, by simp [removeTask]⟩,
    ⟨?_, ?_⟩, ⟨rfl, by simp [toggleComplete]⟩, ⟨?_, ?_⟩⟩ <;>
    simp [addTask, htask, confirmEdit, ht]

/-- C3: whatever the outcome, `toggleComplete` issues as its first (and
only network-mutating) request an update whose `completed` field is the
negation of the `completed` value passed from the tapped row, and whose
`title` field is the title of a task with that id in local state, or the
empty string when no task with that id is present. -/
theorem toggleComplete_request (s : AppState) (id : Nat) (completed : Bool)
    (out : MutOutcome) :
    ∃ title,
      (toggleComplete s id completed out).reqs.head? =
        some (Request.update id title (!completed)) ∧
      ((∃ t, t ∈ s.tasks ∧ t.id = id ∧ title = t.title) ∨
        ((∀ t ∈ s.tasks, t.id ≠ id) ∧ title = "")) := by
  refine ⟨((s.tasks.find? fun t => t.id == id).map Task.title).getD "",
    ?_, ?_⟩
  · cases out <;> simp [toggleComplete, fetchTasks]
  · cases hfind : s.tasks.find? fun t => t.id == id with
    | none =>
        refine Or.inr ⟨fun t ht => ?_, by simp [hfind]⟩
        have := List.find?_eq_none.mp hfind t ht
        simpa using this
    | some t =>
        refine Or.inl ⟨t, List.mem_of_find?_eq_some hfind, ?_, by simp [hfind]⟩
        simpa using List.find?_some hfind

/-- C4: when the input field is empty or whitespace-only, `addTask` is a
no-op: no request, no alert, no state change. -/
theorem addTask_blank_noop (s : AppState) (out : MutOutcome)
    (h : jsTrim s.task = "") :
    addTask s out = ⟨s, [], []⟩ := by
  simp [addTask, h]

/-- Witness for C4 at the concrete whitespace-only state. -/
theorem addTask_blank_noop_witness :
    jsTrim wsState.task = "" ∧
    addTask wsState MutOutcome.fail = ⟨wsState, [], []⟩ :=
  ⟨by decide, addTask_blank_noop wsState MutOutcome.fail (by decide)⟩

/-- C5: when the input field survives the trim check, a successful
`addTask` issues exactly the creation request with the typed title and
`completed = false`, followed by exactly one re-fetch. -/
theorem addTask_create_then_refetch (s : AppState) (fo : FetchOutcome)
    (h : jsTrim s.task ≠ "") :
    (addTask s (MutOutcome.ok fo)).reqs =
      [Request.create s.task false, Request.fetch] := by
  cases fo <;> simp [addTask, h, fetchTasks]

/-- Witness for C5 at the concrete padded-title state. -/
theorem addTask_create_then_refetch_witness :
    jsTrim padState.task ≠ "" ∧
    (addTask padState (MutOutcome.ok (some []))).reqs =
      [Request.create " hello " false, Request.fetch] :=
  ⟨by decide, addTask_create_then_refetch padState (some []) (by decide)⟩

/-- C6: when `tasks[index]` is the task `t`, `confirmEdit` sends an update
request to `t.id` whose `completed` field equals `t.completed` (only the
title is replaced, by the edited text), and a successful call is followed
by exactly one re-fetch. -/
theorem confirmEdit_preserves_completed (s : AppState) (index : Nat)
    (t : Task) (out : MutOutcome) (h : s.tasks[index]? = some t) :
    (confirmEdit s index out).reqs.head? =
      some (Request.update t.id s.editedTask t.completed) ∧
    (∀ fo, (confirmEdit s index (MutOutcome.ok fo)).reqs =
      [Request.update t.id s.editedTask t.completed, Request.fetch]) := by
  constructor
  · cases out <;> simp [confirmEdit, h, fetchTasks]
  · intro fo
    cases fo <;> simp [confirmEdit, h, fetchTasks]

/-- Witness for C6 at the concrete mismatch state, index 0. -/
theorem confirmEdit_preserves_completed_witness :
    mismatchState.tasks[0]? = some taskA ∧
    (confirmEdit mismatchState 0 MutOutcome.fail).reqs.head? =
      some (Request.update taskA.id mismatchState.editedTask
        taskA.completed) :=
  ⟨rfl, (confirmEdit_preserves_completed mismatchState 0 taskA
    MutOutcome.fail rfl).1⟩

/-- Witness for C2 at the concrete padded-title state (one task, index 0
in range, non-blank input). -/
theorem failure_leaves_tasks_and_alerts_witness :
    jsTrim padState.task ≠ "" ∧ 0 < padState.tasks.length ∧
    ((confirmEdit padState 0 MutOutcome.fail).state.tasks = padState.tasks ∧
      (confirmEdit padState 0 MutOutcome.fail).alerts ≠ []) :=
  ⟨by decide, by decide,
    (failure_leaves_tasks_and_alerts padState 1 true 0 (by decide)
        (by decide)).2.2.2.2⟩

/-- C7: each mutation whose own network call succeeds issues exactly one
re-fetch of the task list, and issues none when the call fails. -/
theorem mutation_refetch_once (s : AppState) (id : Nat) (completed : Bool)
    (index : Nat) (fo : FetchOutcome)
    (htask : jsTrim s.task ≠ "") (hindex : index < s.tasks.length) :
    ((removeTask s id (MutOutcome.ok fo)).reqs.count Request.fetch = 1 ∧
      (removeTask s id MutOutcome.fail).reqs.count Request.fetch = 0) ∧
    ((addTask s (MutOutcome.ok fo)).reqs.count Request.fetch = 1 ∧
      (addTask s MutOutcome.fail).reqs.count Request.fetch = 0) ∧
    ((toggleComplete s id completed (MutOutcome.ok fo)).reqs.count
        Request.fetch = 1 ∧
      (toggleComplete s id completed MutOutcome.fail).reqs.count
        Request.fetch = 0) ∧
    ((confirmEdit s index (MutOutcome.ok fo)).reqs.count Request.fetch = 1 ∧
      (confirmEdit s index MutOutcome.fail).reqs.count Request.fetch = 0) := by
  obtain ⟨t, ht⟩ : ∃ t, s.tasks[index]? = some t :=
    ⟨s.tasks[index], List.getElem?_eq_getElem hindex⟩
  refine ⟨⟨?_, ?_⟩, ⟨?_, ?_⟩, ⟨?_, ?_⟩, ⟨?_, ?_⟩⟩ <;>
    cases fo <;>
    simp [removeTask, addTask, toggleComplete, confirmEdit, fetchTasks,
      htask, ht, List.count_cons, List.count_nil]

/-- Witness for C7 at the concrete padded-title state. -/
theorem mutation_refetch_once_witness :
    jsTrim padState.task ≠ "" ∧ 0 < padState.tasks.length ∧
    (addTask padState (MutOutcome.ok (some []))).reqs.count
      Request.fetch = 1 :=
  ⟨by decide, by decide,
    (mutation_refetch_once padState 1 true 0 (some []) (by decide)
        (by decide)).2.1.1⟩

/-- C10: every accepted title is sent verbatim in the creation request:
the body carries `s.task` itself, not its trimmed form. -/
theorem addTask_sends_title_verbatim (s : AppState) (out : MutOutcome)
    (h : jsTrim s.task ≠ "") :
    (addTask s out).reqs.head? = some (Request.create s.task false) := by
  cases out with
  | fail => simp [addTask, h]
  | ok fo => cases fo <;> simp [addTask, h, fetchTasks]

/-- Witness for C10: the padded title `" hello "` is accepted and sent
with its surrounding whitespace intact, although trimming would have
changed it. -/
theorem addTask_sends_title_verbatim_witness :
    jsTrim padState.task ≠ "" ∧
    (addTask padState MutOutcome.fail).reqs.head? =
      some (Request.create " hello " false) ∧
    padState.task ≠ jsTrim padState.task :=
  ⟨by decide,
    addTask_sends_title_verbatim padState MutOutcome.fail (by decide),
    by decide⟩

end TodoApp
